import Mathlib

/-!
Verification of the outreach campaign state machine and scheduler of the
salesh-auto backend (`app/services/scheduler_service.py`,
`app/services/automation_service.py`, `app/automation_endpoints.py`,
`app/main.py`, `app/models.py`).

The embedding is shallow: the relational tables become lists of records in a
`DB` structure, datetimes become minute counts (`Nat`, minutes since an
arbitrary epoch; one calendar day is 1440 minutes, matching the code, which
zeroes seconds and microseconds at every comparison point it constructs),
and Python functions become Lean functions over those records.  Fallible
Python code (a call that raises) is modelled with `Except`.
-/

namespace SalesAuto

/-! ## Enumerations (`app/enums.py`) -/

inductive MessageType where
  | EMAIL
  | WHATSAPP
  | RCS
deriving DecidableEq

inductive MessageStage where
  | INITIAL
  | FOLLOWUP_1
  | FOLLOWUP_2
deriving DecidableEq

inductive MessageStatus where
  | DRAFT
  | SENT
  | DELIVERED
  | READ
  | FAILED
  | CANCELLED
  | SKIPPED
deriving DecidableEq

/-! ## Time model

Instants are minutes since an epoch.  `dayOf` is the calendar date
(`datetime.date()`), `replaceTime` is `now.replace(hour=h, minute=m,
second=0, microsecond=0)`, and `daysToMinutes` is `timedelta(days=d)`. -/

def minutesPerDay : Nat := 1440

def dayOf (t : Nat) : Nat := t / minutesPerDay

def minuteOfDay (t : Nat) : Nat := t % minutesPerDay

def replaceTime (t : Nat) (hour minute : Nat) : Nat :=
  dayOf t * minutesPerDay + hour * 60 + minute

def daysToMinutes (d : Nat) : Nat := d * minutesPerDay

/-! ## Records (`app/models.py`) -/

/-- `CompanyEmail` row. -/
structure CompanyEmail where
  company_id : Nat
  email : String
  is_primary : Bool
  is_verified : Bool
deriving DecidableEq

/-- `CompanyPhone` row. -/
structure CompanyPhone where
  company_id : Nat
  phone : String
  is_primary : Bool
  is_verified : Bool
deriving DecidableEq

/-- `Company` row, with its `emails`/`phones` relationship lists inlined and
the nullable legacy `email`/`phone` columns as `Option`. -/
structure Company where
  id : Nat
  name : String
  industry : String
  country : String
  email : Option String
  phone : Option String
  website : Option String
  emails : List CompanyEmail
  phones : List CompanyPhone
deriving DecidableEq

/-- `Company.primary_email`: first email flagged primary, else the first
email row, else the legacy `email` column. -/
def Company.primary_email (c : Company) : Option String :=
  match c.emails.find? (fun e => e.is_primary) with
  | some e => some e.email
  | none =>
    match c.emails with
    | e :: _ => some e.email
    | [] => c.email

/-- `Company.primary_phone`: first phone flagged primary, else the first
phone row, else the legacy `phone` column. -/
def Company.primary_phone (c : Company) : Option String :=
  match c.phones.find? (fun p => p.is_primary) with
  | some p => some p.phone
  | none =>
    match c.phones with
    | p :: _ => some p.phone
    | [] => c.phone

/-- `Message` row (the spec's "Send").  `error` models the transient
attribute the reply-handling code sets on cancelled messages. -/
structure Message where
  id : Nat
  company_id : Nat
  campaign_id : Nat
  type : MessageType
  stage : MessageStage
  content : String
  subject : Option String
  status : MessageStatus
  scheduled_for : Option Nat
  sent_at : Option Nat
  error : Option String
deriving DecidableEq

/-- `UnsubscribeList` row. -/
structure UnsubscribeList where
  email : String
  company_id : Option Nat
  reason : Option String
  unsubscribed_at : Nat
deriving DecidableEq

/-- `ReplyTracking` row. -/
structure ReplyTracking where
  company_id : Nat
  campaign_id : Option Nat
  message_id : Option Nat
  from_email : String
  subject : Option String
  reply_content : Option String
  replied_at : Nat
deriving DecidableEq

/-- `AutomationConfig` row (the columns the scheduler reads or writes). -/
structure AutomationConfig where
  id : Nat
  is_active : Bool
  status : String
  send_time_hour : Nat
  send_time_minute : Option Nat
  followup_day_1 : Nat
  followup_day_2 : Nat
  run_duration_days : Nat
  start_date : Option Nat
  end_date : Option Nat
  total_companies_fetched : Nat
  days_completed : Nat
  total_messages_sent : Nat
  last_run_at : Option Nat
deriving DecidableEq

/-- The transactional store: the tables the core subsystem touches. -/
structure DB where
  messages : List Message
  unsubscribe_list : List UnsubscribeList
  reply_tracking : List ReplyTracking
deriving DecidableEq

/-! ## Suppression services (`app/services/automation_service.py`) -/

/-- Python's `str.lower()`, modelled character by character. -/
def lowerStr (s : String) : String :=
  String.mk (s.data.map Char.toLower)

/-- `UnsubscribeService.is_unsubscribed` for a non-null email argument:
membership of the case-normalized address in `unsubscribe_list`. -/
def is_unsubscribed (db : DB) (email : String) : Bool :=
  db.unsubscribe_list.any (fun u => u.email == lowerStr email)

/-- Message produced by calling `.lower()` on Python `None`, which is what
`is_unsubscribed` / `add_to_unsubscribe_list` do with a null email. -/
def noneLowerError : String :=
  "AttributeError: NoneType object has no attribute lower"

/-- `UnsubscribeService.is_unsubscribed` as called with a nullable email
(`Company.email`): a null email raises before any query runs. -/
def is_unsubscribed_checked (db : DB) (email : Option String) : Except String Bool :=
  match email with
  | none => .error noneLowerError
  | some e => .ok (is_unsubscribed db e)

/-- `UnsubscribeService.add_to_unsubscribe_list`.  The email argument is
taken nullable because the reply-ingestion call sites pass the nullable
legacy `Company.email` column straight through; on `none` the Python body
raises at `email.lower()` before touching the store. -/
def add_to_unsubscribe_list (db : DB) (email : Option String)
    (company_id : Option Nat) (reason : Option String) (now : Nat) :
    Except String (UnsubscribeList × DB) :=
  match email with
  | none => .error noneLowerError
  | some e =>
    match db.unsubscribe_list.find? (fun u => u.email == lowerStr e) with
    | some existing => .ok (existing, db)
    | none =>
      let entry : UnsubscribeList :=
        { email := lowerStr e, company_id := company_id, reason := reason,
          unsubscribed_at := now }
      .ok (entry, { db with unsubscribe_list := db.unsubscribe_list ++ [entry] })

/-- `ReplyTrackingService.has_replied`: does any `ReplyTracking` row exist
for the company. -/
def has_replied (db : DB) (company_id : Nat) : Bool :=
  db.reply_tracking.any (fun r => r.company_id == company_id)

/-- `ReplyTrackingService.record_reply`: return the existing row for
(company, lower-cased from_email) if present, otherwise insert and commit a
new one.  The returned `DB` is the state committed inside the call. -/
def record_reply (db : DB) (company_id : Nat) (from_email : String)
    (subject reply_content : Option String) (now : Nat) :
    ReplyTracking × DB :=
  match db.reply_tracking.find?
      (fun r => r.company_id == company_id && r.from_email == lowerStr from_email) with
  | some existing => (existing, db)
  | none =>
    let r : ReplyTracking :=
      { company_id := company_id, campaign_id := none, message_id := none,
        from_email := lowerStr from_email, subject := subject,
        reply_content := reply_content, replied_at := now }
    (r, { db with reply_tracking := db.reply_tracking ++ [r] })

/-! ## Reply-driven cancellation
(`SchedulerService.reply_checker_job` lines 592-602 and `whatsapp_webhook`
lines 359-369: both query the company's DRAFT messages and set each to
CANCELLED with a note). -/

/-- The per-row effect of the cancellation loop: a DRAFT message of the
replying company becomes CANCELLED with the note, every other row is left
alone. -/
def cancelOne (company_id : Nat) (note : String) (m : Message) : Message :=
  if m.company_id == company_id && m.status == .DRAFT then
    { m with status := .CANCELLED, error := some note }
  else m

/-- Cancel all DRAFT messages of a company (the "IMMEDIATE ACTION: Stop all
future messages" block shared by the email reply checker and the WhatsApp
webhook). -/
def cancel_future_messages (db : DB) (company_id : Nat) (note : String) : DB :=
  { db with messages := db.messages.map (cancelOne company_id note) }

/-- The two states committed by the reply-handling flow for a matched
company: `record_reply` commits on its own (first component), then the
caller cancels the company's DRAFT messages and commits again (second
component). -/
def reply_ingest_commits (db : DB) (company_id : Nat) (from_email : String)
    (subject reply_content : Option String) (note : String) (now : Nat) :
    DB × DB :=
  let db1 := (record_reply db company_id from_email subject reply_content now).2
  (db1, cancel_future_messages db1 company_id note)

/-! ## Delivery driver (`SchedulerService.message_sender_job`) -/

/-- The sender's selection query: status DRAFT and `scheduled_for <= now`
(an SQL comparison, false on a NULL `scheduled_for`), first 100 rows. -/
def due_drafts (db : DB) (now : Nat) : List Message :=
  (db.messages.filter (fun m =>
    m.status == .DRAFT &&
      (match m.scheduled_for with
       | some t => t ≤ now
       | none => false))).take 100

/-- Outcome returned by a channel transport (`send_email_async` /
`send_template_message`): the `status` field of the result dict. -/
inductive SendOutcome where
  | sent
  | failed
deriving DecidableEq

/-- Observable effect of processing one due message: the new status and
`sent_at`, plus how many times each transport's send was invoked. -/
structure SenderStep where
  status : MessageStatus
  sent_at : Option Nat
  email_calls : Nat
  wa_calls : Nat
deriving DecidableEq

/-- One iteration of the `message_sender_job` loop for message `m`, with the
transports abstracted as the outcomes they would return.  Mirrors the source
order: resolve company, resolve destination, suppression checks, transport
call, status update.  On the EMAIL branch the code checks `is_unsubscribed`
on the primary email and then `has_replied`; on the WHATSAPP branch it
checks only `has_replied`. -/
def process_due_message (db : DB) (companies : List Company) (now : Nat)
    (emailOutcome waOutcome : SendOutcome) (m : Message) : SenderStep :=
  match companies.find? (fun c => c.id == m.company_id) with
  | none => ⟨.FAILED, m.sent_at, 0, 0⟩
  | some company =>
    match m.type with
    | .EMAIL =>
      match company.primary_email with
      | none => ⟨.FAILED, m.sent_at, 0, 0⟩
      | some pe =>
        if is_unsubscribed db pe then ⟨.FAILED, m.sent_at, 0, 0⟩
        else if has_replied db company.id then ⟨.FAILED, m.sent_at, 0, 0⟩
        else
          match emailOutcome with
          | .sent => ⟨.SENT, some now, 1, 0⟩
          | .failed => ⟨.FAILED, m.sent_at, 1, 0⟩
    | .WHATSAPP =>
      match company.primary_phone with
      | none => ⟨.FAILED, m.sent_at, 0, 0⟩
      | some _ =>
        if has_replied db company.id then ⟨.FAILED, m.sent_at, 0, 0⟩
        else
          match waOutcome with
          | .sent => ⟨.SENT, some now, 0, 1⟩
          | .failed => ⟨.FAILED, m.sent_at, 0, 1⟩
    | .RCS => ⟨m.status, m.sent_at, 0, 0⟩

/-! ## Operator bulk retry (`main.py` `retry_messages_batch`) -/

/-- Per-row effect of the bulk retry update: rows among the requested ids
whose status is FAILED go back to DRAFT; everything else is untouched. -/
def retryOne (ids : List Nat) (m : Message) : Message :=
  if ids.contains m.id && m.status == .FAILED then
    { m with status := .DRAFT }
  else m

/-- `POST /api/messages/batch/retry`: set status DRAFT on the FAILED
messages among the requested ids. -/
def retry_messages_batch (db : DB) (ids : List Nat) : DB :=
  { db with messages := db.messages.map (retryOne ids) }

/-! ## Campaign generation
(`SchedulerService._generate_campaign_for_config`, per-company block) -/

/-- Does the character list `hay` start with `needle`? -/
def charsLeading : List Char → List Char → Bool
  | [], _ => true
  | _ :: _, [] => false
  | a :: as, b :: bs => a == b && charsLeading as bs

/-- Substring containment on character lists (Python's `needle in hay`). -/
def charsContain : List Char → List Char → Bool
  | needle, [] => needle.isEmpty
  | needle, c :: rest => charsLeading needle (c :: rest) || charsContain needle rest

/-- Python `needle in hay` on strings. -/
def strContain (needle hay : String) : Bool :=
  charsContain needle.data hay.data

/-- `''.join(filter(str.isdigit, s))`. -/
def digitsOf (s : String) : String :=
  String.mk (s.data.filter Char.isDigit)

/-- The demo/invalid numbers checked during generation. -/
def demo_numbers : List String :=
  ["987654321", "9876543210", "1234567890", "0000000000"]

/-- Python truthiness of a nullable string (`if primary_phone:`). -/
def optTruthy : Option String → Bool
  | none => false
  | some s => !s.isEmpty

/-- The `is_demo_phone` flag computed during generation: true when the
phone is truthy and its digit string contains one of the demo numbers. -/
def is_demo_phone (primary_phone : Option String) : Bool :=
  match primary_phone with
  | none => false
  | some p =>
    if p.isEmpty then false
    else demo_numbers.any (fun d => strContain d (digitsOf p))

/-- `today_send_time`: today at the configured hour/minute, pushed to
tomorrow when that instant is already past. -/
def today_send_time (now hour minute : Nat) : Nat :=
  let t0 := replaceTime now hour minute
  if t0 < now then t0 + minutesPerDay else t0

/-- The six (or three) `Message` rows `_generate_campaign_for_config`
builds for one company: three EMAIL rows always, three WHATSAPP rows only
when the primary phone is truthy and not a demo number.  Content and
subject come from the content-generation collaborator, passed in here;
`firstId` stands for the store-assigned row ids. -/
def generate_company_messages (cfg : AutomationConfig) (company : Company)
    (campaign_id firstId : Nat) (emailSubject : Option String)
    (emailBody waBody : String) (now : Nat) : List Message :=
  let T := today_send_time now cfg.send_time_hour (cfg.send_time_minute.getD 0)
  let pp := company.primary_phone
  let emailMsgs : List Message :=
    [ { id := firstId, company_id := company.id, campaign_id := campaign_id,
        type := .EMAIL, stage := .INITIAL, content := emailBody,
        subject := some (emailSubject.getD "Business Opportunity"),
        status := .DRAFT, scheduled_for := some T,
        sent_at := none, error := none },
      { id := firstId + 1, company_id := company.id, campaign_id := campaign_id,
        type := .EMAIL, stage := .FOLLOWUP_1, content := emailBody,
        subject := some ("Re: " ++ emailSubject.getD "Follow-up"),
        status := .DRAFT,
        scheduled_for := some (T + daysToMinutes cfg.followup_day_1),
        sent_at := none, error := none },
      { id := firstId + 2, company_id := company.id, campaign_id := campaign_id,
        type := .EMAIL, stage := .FOLLOWUP_2, content := emailBody,
        subject := some ("Re: " ++ emailSubject.getD "Final follow-up"),
        status := .DRAFT,
        scheduled_for := some (T + daysToMinutes cfg.followup_day_2),
        sent_at := none, error := none } ]
  let waMsgs : List Message :=
    [ { id := firstId + 3, company_id := company.id, campaign_id := campaign_id,
        type := .WHATSAPP, stage := .INITIAL, content := waBody,
        subject := none, status := .DRAFT, scheduled_for := some T,
        sent_at := none, error := none },
      { id := firstId + 4, company_id := company.id, campaign_id := campaign_id,
        type := .WHATSAPP, stage := .FOLLOWUP_1, content := waBody,
        subject := none, status := .DRAFT,
        scheduled_for := some (T + daysToMinutes cfg.followup_day_1),
        sent_at := none, error := none },
      { id := firstId + 5, company_id := company.id, campaign_id := campaign_id,
        type := .WHATSAPP, stage := .FOLLOWUP_2, content := waBody,
        subject := none, status := .DRAFT,
        scheduled_for := some (T + daysToMinutes cfg.followup_day_2),
        sent_at := none, error := none } ]
  if !is_demo_phone pp && optTruthy pp then emailMsgs ++ waMsgs else emailMsgs

/-- The spec's channel-eligibility predicate, written from the spec's words
("at least one contact channel that has passed external verification") for
comparison against the code's gate: some contact record carries a true
verification flag. -/
def has_verified_contact_channel (c : Company) : Bool :=
  c.phones.any (fun p => p.is_verified) || c.emails.any (fun e => e.is_verified)

/-! ## Automation lifecycle
(`SchedulerService.automation_runner_job`, `run_single_automation`,
`automation_endpoints.start_automation`) -/

/-- `run_single_automation` restricted to its effect on the config row.
`fetchOk` abstracts whether the company-fetch collaborator succeeds; on
failure the raised error is caught by the runner after a rollback, leaving
the config untouched.  On success the stats and the `last_run_at` watermark
advance and campaign generation adds `messages_created` to the counter. -/
def run_single_automation (now : Nat) (fetchOk : Bool)
    (fetched messages_created : Nat) (cfg : AutomationConfig) : AutomationConfig :=
  if cfg.status == "running" &&
      (match cfg.end_date with
       | some e => decide (now > e)
       | none => false) then
    { cfg with status := "completed", is_active := false }
  else if fetchOk then
    { cfg with
        total_companies_fetched := cfg.total_companies_fetched + fetched,
        last_run_at := some now,
        days_completed := cfg.days_completed + 1,
        total_messages_sent := cfg.total_messages_sent + messages_created }
  else cfg

/-- One `automation_runner_job` tick for a single config: the active/running
selection filter, the end-date completion check, the ran-today gate, and the
send-time gate, in source order.  The boolean is true exactly when the tick
triggers `run_single_automation`. -/
def runner_tick_config (now : Nat) (fetchOk : Bool)
    (fetched messages_created : Nat) (cfg : AutomationConfig) :
    Bool × AutomationConfig :=
  if !(cfg.is_active && cfg.status == "running") then (false, cfg)
  else if (match cfg.end_date with
           | some e => decide (now > e)
           | none => false) then
    (false, { cfg with status := "completed", is_active := false })
  else if (match cfg.last_run_at with
           | some l => decide (dayOf now ≤ dayOf l)
           | none => false) then
    (false, cfg)
  else if replaceTime now cfg.send_time_hour (cfg.send_time_minute.getD 0) ≤ now then
    (true, run_single_automation now fetchOk fetched messages_created cfg)
  else (false, cfg)

/-- `POST /api/automation/{id}/start`: the explicit start action merely
flips `is_active`; it does not touch `status`, `start_date` or `end_date`. -/
def start_automation (cfg : AutomationConfig) : AutomationConfig :=
  { cfg with is_active := true }

/-! ## Concrete fixtures used by witnesses and counterexamples -/

def exCompany1 : Company :=
  { id := 1, name := "Acme", industry := "tech", country := "IN",
    email := some "a@x.com", phone := none, website := none,
    emails := [], phones := [] }

def exDraftMsg : Message :=
  { id := 10, company_id := 1, campaign_id := 1, type := .EMAIL,
    stage := .INITIAL, content := "hi", subject := some "s",
    status := .DRAFT, scheduled_for := some 0, sent_at := none, error := none }

def exSentMsg : Message :=
  { id := 11, company_id := 1, campaign_id := 1, type := .EMAIL,
    stage := .FOLLOWUP_1, content := "hi", subject := some "s",
    status := .SENT, scheduled_for := some 0, sent_at := some 5, error := none }

def exDB1 : DB :=
  { messages := [exDraftMsg, exSentMsg], unsubscribe_list := [], reply_tracking := [] }

/-! ## C1 -/

/-- C1: recording a reply cancels exactly the company's DRAFT sends and
touches nothing else.  The cancellation step maps `cancelOne` over the
message table; `cancelOne` fixes every SENT row (hence `sent_at` too),
rewrites every DRAFT row of the company to CANCELLED, and changes a row iff
it is a DRAFT row of the company. -/
theorem reply_cancels_future_not_past (db : DB) (cid : Nat) (note : String) :
    (cancel_future_messages db cid note).messages
      = db.messages.map (cancelOne cid note)
    ∧ (∀ m : Message, m.status = .SENT → cancelOne cid note m = m)
    ∧ (∀ m : Message, m.company_id = cid → m.status = .DRAFT →
        cancelOne cid note m
          = { m with status := .CANCELLED, error := some note })
    ∧ (∀ m : Message, cancelOne cid note m ≠ m ↔
        (m.company_id = cid ∧ m.status = .DRAFT)) := by
  refine ⟨rfl, ?_, ?_, ?_⟩
  · intro m h
    simp [cancelOne, h]
  · intro m h1 h2
    simp [cancelOne, h1, h2]
  · intro m
    constructor
    · intro hne
      by_contra hcon
      push_neg at hcon
      apply hne
      unfold cancelOne
      by_cases h1 : m.company_id = cid
      · have h2 := hcon h1
        simp [h1, h2]
      · simp [h1]
    · rintro ⟨h1, h2⟩
      have hcond : (m.company_id == cid && m.status == MessageStatus.DRAFT) = true := by
        simp [h1, h2]
      unfold cancelOne
      rw [if_pos hcond]
      intro heq
      have hst : MessageStatus.CANCELLED = m.status := congrArg Message.status heq
      rw [h2] at hst
      exact MessageStatus.noConfusion hst

/-- Witness for C1 on a concrete store: the DRAFT row of company 1 is
rewritten to CANCELLED and the SENT row is untouched. -/
theorem reply_cancels_future_not_past_witness :
    cancelOne 1 "n" exDraftMsg
      = { exDraftMsg with status := .CANCELLED, error := some "n" }
    ∧ cancelOne 1 "n" exSentMsg = exSentMsg :=
  ⟨(reply_cancels_future_not_past exDB1 1 "n").2.2.1 exDraftMsg rfl rfl,
   (reply_cancels_future_not_past exDB1 1 "n").2.1 exSentMsg rfl⟩

/-! ## C5 -/

/-- C5: no core operation leaves SENT, CANCELLED or SKIPPED.  The sender
selects only due DRAFT rows, reply-driven cancellation fixes every
non-DRAFT row, and the bulk retry changes a row only when its status is
FAILED, setting it back to DRAFT. -/
theorem terminal_states_never_exited (db : DB) (now : Nat) (ids : List Nat)
    (cid : Nat) (note : String) :
    (∀ m ∈ due_drafts db now,
        m.status = .DRAFT ∧ ∃ t, m.scheduled_for = some t ∧ t ≤ now)
    ∧ (∀ m : Message,
        m.status = .SENT ∨ m.status = .CANCELLED ∨ m.status = .SKIPPED →
        cancelOne cid note m = m ∧ retryOne ids m = m)
    ∧ (∀ m : Message, retryOne ids m ≠ m →
        m.status = .FAILED ∧ retryOne ids m = { m with status := .DRAFT }) := by
  refine ⟨?_, ?_, ?_⟩
  · intro m hm
    have hm' : m ∈ db.messages.filter (fun m =>
        m.status == .DRAFT &&
          (match m.scheduled_for with
           | some t => t ≤ now
           | none => false)) := List.take_subset _ _ hm
    have hp := (List.mem_filter.mp hm').2
    rw [Bool.and_eq_true] at hp
    refine ⟨by simpa using hp.1, ?_⟩
    rcases hsf : m.scheduled_for with _ | t
    · rw [hsf] at hp
      simp at hp
    · rw [hsf] at hp
      exact ⟨t, rfl, by simpa using hp.2⟩
  · intro m hm
    have hst : (m.status == MessageStatus.DRAFT) = false := by
      rcases hm with h | h | h <;> simp [h]
    have hfd : (m.status == MessageStatus.FAILED) = false := by
      rcases hm with h | h | h <;> simp [h]
    constructor
    · simp [cancelOne, hst]
    · simp [retryOne, hfd]
  · intro m hne
    by_cases hfd : m.status = .FAILED
    · by_cases hid : ids.contains m.id = true
      · refine ⟨hfd, ?_⟩
        unfold retryOne
        rw [if_pos (by simp [hfd]; simpa using hid)]
      · exfalso
        apply hne
        unfold retryOne
        rw [if_neg (by simp; intro h; exact absurd (by simpa using h) (by simpa using hid))]
    · exfalso
      apply hne
      unfold retryOne
      rw [if_neg (by simp [hfd])]

/-- Witness for C5: a SENT row is fixed by both cancellation and retry. -/
theorem terminal_states_never_exited_witness :
    cancelOne 1 "n" exSentMsg = exSentMsg ∧ retryOne [11] exSentMsg = exSentMsg :=
  (terminal_states_never_exited exDB1 0 [11] 1 "n").2.1 exSentMsg (Or.inl rfl)

/-! ## C10 -/

/-- C10: the legacy `Company.email` column is nullable and the
reply-ingestion negative-sentiment paths pass it straight into the
unsubscribe service; when it is null, `add_to_unsubscribe_list` (and
`is_unsubscribed`) raise instead of recording an entry. -/
theorem null_email_unsubscribe_raises (db : DB) (cid : Option Nat)
    (r : Option String) (now : Nat) (c : Company) (hc : c.email = none) :
    add_to_unsubscribe_list db c.email cid r now = .error noneLowerError
    ∧ is_unsubscribed_checked db c.email = .error noneLowerError := by
  rw [hc]
  exact ⟨rfl, rfl⟩

/-- Witness for C10 at a company with a null legacy email. -/
theorem null_email_unsubscribe_raises_witness :
    add_to_unsubscribe_list exDB1 ({ exCompany1 with email := none } : Company).email
        (some 1) (some "neg") 0 = .error noneLowerError :=
  (null_email_unsubscribe_raises exDB1 (some 1) (some "neg") 0
    { exCompany1 with email := none } rfl).1

/-! ## C2 -/

def exCompany2 : Company :=
  { id := 1, name := "Acme", industry := "tech", country := "IN",
    email := some "a@x.com", phone := none, website := none,
    emails := [],
    phones := [{ company_id := 1, phone := "5551234567",
                 is_primary := true, is_verified := false }] }

def exWaMsg : Message :=
  { id := 12, company_id := 1, campaign_id := 1, type := .WHATSAPP,
    stage := .INITIAL, content := "hi", subject := none,
    status := .DRAFT, scheduled_for := some 0, sent_at := none, error := none }

def exEmailMsg : Message :=
  { id := 13, company_id := 1, campaign_id := 1, type := .EMAIL,
    stage := .INITIAL, content := "hi", subject := some "s",
    status := .DRAFT, scheduled_for := some 0, sent_at := none, error := none }

def exDB2 : DB :=
  { messages := [exWaMsg],
    unsubscribe_list := [{ email := "a@x.com", company_id := some 1,
                           reason := none, unsubscribed_at := 0 }],
    reply_tracking := [] }

/-- C2 counterexample: company 1's destination email is on the unsubscribe
list (so the company is suppressed in the spec's sense) and it has never
replied; its due DRAFT WhatsApp send is nevertheless handed to the
transport (one call) and ends up SENT, not FAILED. -/
theorem whatsapp_unsubscribed_transport_called :
    is_unsubscribed exDB2 "a@x.com" = true
    ∧ has_replied exDB2 1 = false
    ∧ exWaMsg ∈ due_drafts exDB2 10
    ∧ (process_due_message exDB2 [exCompany2] 10 .sent .sent exWaMsg).wa_calls = 1
    ∧ (process_due_message exDB2 [exCompany2] 10 .sent .sent exWaMsg).status = .SENT := by
  refine ⟨by decide, by decide, ?_, by decide, by decide⟩
  show exWaMsg ∈ due_drafts exDB2 10
  decide

/-- C2 amended: suppression blocks without a transport call, but the two
suppression predicates are consulted per channel: on EMAIL both the
unsubscribe list (for the resolved primary email) and the reply record
block; on WHATSAPP only a reply record blocks, the unsubscribe list is not
consulted. -/
theorem suppression_gate_by_channel (db : DB) (companies : List Company)
    (now : Nat) (eo wo : SendOutcome) (m : Message) (c : Company)
    (hc : companies.find? (fun x => x.id == m.company_id) = some c) :
    (∀ pe, m.type = .EMAIL → c.primary_email = some pe →
        (is_unsubscribed db pe = true ∨ has_replied db c.id = true) →
        process_due_message db companies now eo wo m
          = ⟨.FAILED, m.sent_at, 0, 0⟩)
    ∧ (m.type = .WHATSAPP → has_replied db c.id = true →
        process_due_message db companies now eo wo m
          = ⟨.FAILED, m.sent_at, 0, 0⟩) := by
  constructor
  · intro pe hty hpe hsup
    rcases hsup with h | h <;>
      simp [process_due_message, hc, hty, hpe, h]
  · intro hty hrep
    rcases hpp : c.primary_phone with _ | p <;>
      simp [process_due_message, hc, hty, hrep, hpp]

/-- Witness for C2 (amended): a due DRAFT EMAIL send of the unsubscribed
company 1 transitions to FAILED with zero transport calls, and so would a
WhatsApp send of a company with a reply record. -/
theorem suppression_gate_by_channel_witness :
    process_due_message exDB2 [exCompany2] 10 .sent .sent exEmailMsg
      = ⟨.FAILED, exEmailMsg.sent_at, 0, 0⟩ :=
  (suppression_gate_by_channel exDB2 [exCompany2] 10 .sent .sent exEmailMsg
      exCompany2 rfl).1 "a@x.com" rfl rfl (Or.inl (by decide))

/-! ## C3 -/

/-- The row `add_to_unsubscribe_list` inserts on a first call. -/
def freshUnsub (e : String) (cid : Option Nat) (r : Option String)
    (n : Nat) : UnsubscribeList :=
  { email := lowerStr e, company_id := cid, reason := r, unsubscribed_at := n }

/-- The row `record_reply` inserts on a first call. -/
def freshReply (compId : Nat) (f : String) (s c : Option String)
    (n : Nat) : ReplyTracking :=
  { company_id := compId, campaign_id := none, message_id := none,
    from_email := lowerStr f, subject := s, reply_content := c, replied_at := n }

/-- C3: unsubscribe recording and reply recording are idempotent.  Starting
from a store with no entry for the normalized address and no reply row for
the (company, normalized from) pair: the first `add_to_unsubscribe_list`
inserts one entry, the first `record_reply` inserts one row, and repeating
either call with a differently-cased spelling of the same identity is a
no-op that returns the existing record and leaves the store unchanged; the
final store holds exactly one matching entry of each kind. -/
theorem unsubscribe_and_reply_idempotent (db : DB) (e1 e2 f1 f2 : String)
    (cid cid2 : Option Nat) (r r2 : Option String)
    (compId : Nat) (s1 s2 c1 c2 : Option String) (n1 n2 n3 n4 : Nat)
    (hmail : lowerStr e2 = lowerStr e1)
    (hfrom : lowerStr f2 = lowerStr f1)
    (h0 : db.unsubscribe_list.find? (fun x => x.email == lowerStr e1) = none)
    (h1 : db.reply_tracking.find?
        (fun x => x.company_id == compId && x.from_email == lowerStr f1) = none) :
    add_to_unsubscribe_list db (some e1) cid r n1
      = .ok (freshUnsub e1 cid r n1,
          { db with unsubscribe_list :=
              db.unsubscribe_list ++ [freshUnsub e1 cid r n1] })
    ∧ record_reply
        { db with unsubscribe_list :=
            db.unsubscribe_list ++ [freshUnsub e1 cid r n1] }
        compId f1 s1 c1 n2
      = (freshReply compId f1 s1 c1 n2,
          { db with
              unsubscribe_list := db.unsubscribe_list ++ [freshUnsub e1 cid r n1],
              reply_tracking := db.reply_tracking ++ [freshReply compId f1 s1 c1 n2] })
    ∧ add_to_unsubscribe_list
        { db with
            unsubscribe_list := db.unsubscribe_list ++ [freshUnsub e1 cid r n1],
            reply_tracking := db.reply_tracking ++ [freshReply compId f1 s1 c1 n2] }
        (some e2) cid2 r2 n3
      = .ok (freshUnsub e1 cid r n1,
          { db with
              unsubscribe_list := db.unsubscribe_list ++ [freshUnsub e1 cid r n1],
              reply_tracking := db.reply_tracking ++ [freshReply compId f1 s1 c1 n2] })
    ∧ record_reply
        { db with
            unsubscribe_list := db.unsubscribe_list ++ [freshUnsub e1 cid r n1],
            reply_tracking := db.reply_tracking ++ [freshReply compId f1 s1 c1 n2] }
        compId f2 s2 c2 n4
      = (freshReply compId f1 s1 c1 n2,
          { db with
              unsubscribe_list := db.unsubscribe_list ++ [freshUnsub e1 cid r n1],
              reply_tracking := db.reply_tracking ++ [freshReply compId f1 s1 c1 n2] })
    ∧ ((db.unsubscribe_list ++ [freshUnsub e1 cid r n1]).filter
        (fun x => x.email == lowerStr e1)).length = 1
    ∧ ((db.reply_tracking ++ [freshReply compId f1 s1 c1 n2]).filter
        (fun x => x.company_id == compId && x.from_email == lowerStr f1)).length = 1 := by
  have hfindU : (db.unsubscribe_list ++ [freshUnsub e1 cid r n1]).find?
      (fun x => x.email == lowerStr e2) = some (freshUnsub e1 cid r n1) := by
    simp only [hmail]
    rw [List.find?_append, h0]
    simp [freshUnsub]
  have hfindR : (db.reply_tracking ++ [freshReply compId f1 s1 c1 n2]).find?
      (fun x => x.company_id == compId && x.from_email == lowerStr f2)
      = some (freshReply compId f1 s1 c1 n2) := by
    simp only [hfrom]
    rw [List.find?_append, h1]
    simp [freshReply]
  have hnilU : db.unsubscribe_list.filter (fun x => x.email == lowerStr e1) = [] := by
    rw [List.filter_eq_nil_iff]
    intro a ha
    simpa using List.find?_eq_none.mp h0 a ha
  have hnilR : db.reply_tracking.filter
      (fun x => x.company_id == compId && x.from_email == lowerStr f1) = [] := by
    rw [List.filter_eq_nil_iff]
    intro a ha
    simpa using List.find?_eq_none.mp h1 a ha
  refine ⟨?_, ?_, ?_, ?_, ?_, ?_⟩
  · simp [add_to_unsubscribe_list, h0, freshUnsub]
  · simp [record_reply, h1, freshReply]
  · simp [add_to_unsubscribe_list, hfindU]
  · simp [record_reply, hfindR]
  · rw [List.filter_append, hnilU]
    simp [freshUnsub]
  · rw [List.filter_append, hnilR]
    simp [freshReply]

/-- Witness for C3 on an empty store, calling twice with differently-cased
spellings of the same email and the same WhatsApp from-identity. -/
theorem unsubscribe_and_reply_idempotent_witness :
    add_to_unsubscribe_list ⟨[], [], []⟩ (some "A@X.com") (some 1) none 0
      = .ok (freshUnsub "A@X.com" (some 1) none 0,
          { (⟨[], [], []⟩ : DB) with unsubscribe_list :=
              [freshUnsub "A@X.com" (some 1) none 0] })
    ∧ ((([] : List UnsubscribeList) ++ [freshUnsub "A@X.com" (some 1) none 0]).filter
        (fun x => x.email == lowerStr "A@X.com")).length = 1 := by
  have h := unsubscribe_and_reply_idempotent ⟨[], [], []⟩ "A@X.com" "a@x.com"
    "whatsapp:+91 5550001111" "whatsapp:+91 5550001111" (some 1) none none none
    1 none none none none 0 1 2 3 (by decide) rfl rfl rfl
  exact ⟨h.1, h.2.2.2.2.1⟩

/-! ## C4 -/

/-- C4: the fetch/generate cycle runs at most once per calendar day.  For an
active running config not past its end date: a tick on a day already covered
by `last_run_at` triggers nothing and changes nothing; the first tick on a
later day at or after the configured send hour and minute triggers exactly
one run, advances `last_run_at` to the tick time (fetch succeeding), and any
further tick on that same day triggers nothing. -/
theorem automation_daily_gate (cfg : AutomationConfig) (now : Nat)
    (fetchOk : Bool) (k j : Nat)
    (hact : cfg.is_active = true) (hst : cfg.status = "running")
    (hend : ∀ e, cfg.end_date = some e → now ≤ e) :
    (∀ l, cfg.last_run_at = some l → dayOf now ≤ dayOf l →
        runner_tick_config now fetchOk k j cfg = (false, cfg))
    ∧ ((∀ l, cfg.last_run_at = some l → dayOf l < dayOf now) →
       replaceTime now cfg.send_time_hour (cfg.send_time_minute.getD 0) ≤ now →
       (runner_tick_config now true k j cfg).1 = true
       ∧ (runner_tick_config now true k j cfg).2.last_run_at = some now
       ∧ ∀ now2 fo2 k2 j2, dayOf now2 ≤ dayOf now →
           (runner_tick_config now2 fo2 k2 j2
             (runner_tick_config now true k j cfg).2).1 = false) := by
  have hendb : (match cfg.end_date with
      | some e => decide (now > e)
      | none => false) = false := by
    rcases he : cfg.end_date with _ | e
    · rfl
    · simp only [decide_eq_false_iff_not]
      exact Nat.not_lt.mpr (hend e he)
  constructor
  · intro l hl hday
    simp [runner_tick_config, hact, hst, hendb, hl, hday]
  · intro hlast hsched
    have hlastb : (match cfg.last_run_at with
        | some l => decide (dayOf now ≤ dayOf l)
        | none => false) = false := by
      rcases hl : cfg.last_run_at with _ | l
      · rfl
      · simp only [decide_eq_false_iff_not]
        exact Nat.not_le.mpr (hlast l hl)
    have hrun : runner_tick_config now true k j cfg
        = (true, { cfg with
            total_companies_fetched := cfg.total_companies_fetched + k,
            last_run_at := some now,
            days_completed := cfg.days_completed + 1,
            total_messages_sent := cfg.total_messages_sent + j }) := by
      unfold runner_tick_config run_single_automation
      simp [hact, hst, hendb, hlastb, hsched]
    refine ⟨by rw [hrun], by rw [hrun], ?_⟩
    intro now2 fo2 k2 j2 hday2
    rw [hrun]
    rcases he : cfg.end_date with _ | e
    · simp [runner_tick_config, hact, hst, he, hday2]
    · by_cases h2 : now2 > e
      · simp [runner_tick_config, hact, hst, he, h2]
      · simp [runner_tick_config, hact, hst, he, h2, hday2]

def exCfg4 : AutomationConfig :=
  { id := 4, is_active := true, status := "running", send_time_hour := 10,
    send_time_minute := some 0, followup_day_1 := 3, followup_day_2 := 7,
    run_duration_days := 7, start_date := none, end_date := none,
    total_companies_fetched := 0, days_completed := 0,
    total_messages_sent := 0, last_run_at := some 540 }

/-- Witness for C4 at the spec's numbers: `last_run_at` today 09:00
(minute 540), send time 10:00; a tick at 11:00 the same day (minute 660)
does nothing, a tick the next day at 10:05 (minute 2045) triggers the run
and advances the watermark. -/
theorem automation_daily_gate_witness :
    runner_tick_config 660 true 5 6 exCfg4 = (false, exCfg4)
    ∧ (runner_tick_config 2045 true 5 6 exCfg4).1 = true
    ∧ (runner_tick_config 2045 true 5 6 exCfg4).2.last_run_at = some 2045 := by
  have hA := (automation_daily_gate exCfg4 660 true 5 6 rfl rfl
    (by intro e he; simp [exCfg4] at he)).1 540 rfl (by decide)
  have hB := (automation_daily_gate exCfg4 2045 true 5 6 rfl rfl
    (by intro e he; simp [exCfg4] at he)).2
    (by
      intro l hl
      have hl' : l = 540 := by simpa [exCfg4] using hl.symm
      subst hl'
      decide)
    (by decide)
  exact ⟨hA, hB.1, hB.2.1⟩

/-! ## C6 -/

set_option maxRecDepth 4000 in
/-- C6: for every generated message, `scheduled_for` is the base send time
`T` for the INITIAL stage, `T + followup_day_1` days for FOLLOWUP_1 and
`T + followup_day_2` days for FOLLOWUP_2, on both channels. -/
theorem followup_scheduling_offsets (cfg : AutomationConfig) (company : Company)
    (campaign_id firstId : Nat) (es : Option String) (eb wb : String) (now : Nat) :
    ∀ m ∈ generate_company_messages cfg company campaign_id firstId es eb wb now,
      (m.stage = .INITIAL →
        m.scheduled_for = some (today_send_time now cfg.send_time_hour
          (cfg.send_time_minute.getD 0)))
      ∧ (m.stage = .FOLLOWUP_1 →
        m.scheduled_for = some (today_send_time now cfg.send_time_hour
          (cfg.send_time_minute.getD 0) + daysToMinutes cfg.followup_day_1))
      ∧ (m.stage = .FOLLOWUP_2 →
        m.scheduled_for = some (today_send_time now cfg.send_time_hour
          (cfg.send_time_minute.getD 0) + daysToMinutes cfg.followup_day_2)) := by
  intro m hm
  simp only [generate_company_messages] at hm
  split at hm
  · simp only [List.mem_append, List.mem_cons, List.not_mem_nil, or_false] at hm
    rcases hm with ((h | h | h) | (h | h | h)) <;> subst h <;>
      refine ⟨fun hs => ?_, fun hs => ?_, fun hs => ?_⟩ <;>
      first | rfl | simp at hs
  · simp only [List.mem_cons, List.not_mem_nil, or_false] at hm
    rcases hm with h | h | h <;> subst h <;>
      refine ⟨fun hs => ?_, fun hs => ?_, fun hs => ?_⟩ <;>
      first | rfl | simp at hs

def exCompany6 : Company :=
  { id := 3, name := "NoPhone", industry := "tech", country := "IN",
    email := some "c@x.com", phone := none, website := none,
    emails := [], phones := [] }

def exMsgDefault : Message :=
  { id := 0, company_id := 0, campaign_id := 0, type := .EMAIL,
    stage := .INITIAL, content := "", subject := none,
    status := .DRAFT, scheduled_for := none, sent_at := none, error := none }

/-- Witness for C6 with the default offsets 3 and 7 and base time 10:00 of
day 0 (minute 600): the third generated row is the FOLLOWUP_2 email,
scheduled at minute 600 + 7·1440. -/
theorem followup_scheduling_offsets_witness :
    ((generate_company_messages exCfg4 exCompany6 1 1 none "b" "w" 0).getD 2
      exMsgDefault).scheduled_for = some (600 + 7 * 1440) := by
  have h := (followup_scheduling_offsets exCfg4 exCompany6 1 1 none "b" "w" 0
    ((generate_company_messages exCfg4 exCompany6 1 1 none "b" "w" 0).getD 2
      exMsgDefault) (by decide)).2.2 (by decide)
  rw [h]
  decide

/-! ## C8 -/

theorem wa_beq_email_eq_false : (MessageType.WHATSAPP == MessageType.EMAIL) = false := rfl

theorem email_beq_email_eq_true : (MessageType.EMAIL == MessageType.EMAIL) = true := rfl

theorem email_beq_wa_eq_false : (MessageType.EMAIL == MessageType.WHATSAPP) = false := rfl

theorem wa_beq_wa_eq_true : (MessageType.WHATSAPP == MessageType.WHATSAPP) = true := rfl

/-- C8 amended: the WhatsApp gate during generation checks only that the
primary phone is present (truthy) and free of demo numbers; when it fails,
no WHATSAPP row of any kind is created (the total is just the three EMAIL
rows, all DRAFT); when it passes, three WHATSAPP rows are created.  The
three EMAIL rows are created unconditionally. -/
theorem whatsapp_gate_demo_and_presence (cfg : AutomationConfig) (company : Company)
    (campaign_id firstId : Nat) (es : Option String) (eb wb : String) (now : Nat) :
    ((generate_company_messages cfg company campaign_id firstId es eb wb now).filter
        (fun m => m.type == .EMAIL)).length = 3
    ∧ (∀ m ∈ generate_company_messages cfg company campaign_id firstId es eb wb now,
        m.status = .DRAFT)
    ∧ (is_demo_phone company.primary_phone = true
        ∨ optTruthy company.primary_phone = false →
        (generate_company_messages cfg company campaign_id firstId es eb wb now).filter
          (fun m => m.type == .WHATSAPP) = []
        ∧ (generate_company_messages cfg company campaign_id firstId es eb wb now).length = 3)
    ∧ (is_demo_phone company.primary_phone = false →
        optTruthy company.primary_phone = true →
        ((generate_company_messages cfg company campaign_id firstId es eb wb now).filter
          (fun m => m.type == .WHATSAPP)).length = 3) := by
  by_cases hg : (!is_demo_phone company.primary_phone
      && optTruthy company.primary_phone) = true
  · rw [Bool.and_eq_true, Bool.not_eq_true'] at hg
    refine ⟨?_, ?_, ?_, ?_⟩
    · simp [generate_company_messages, hg.1, hg.2, List.filter, wa_beq_email_eq_false, email_beq_email_eq_true, email_beq_wa_eq_false, wa_beq_wa_eq_true]
    · intro m hm
      simp only [generate_company_messages, hg.1, hg.2] at hm
      simp only [Bool.not_false, Bool.and_self, if_true, List.mem_append,
        List.mem_cons, List.not_mem_nil, or_false] at hm
      rcases hm with ((h | h | h) | (h | h | h)) <;> subst h <;> rfl
    · intro hbad
      rcases hbad with h | h
      · rw [hg.1] at h
        exact absurd h (by decide)
      · rw [hg.2] at h
        exact absurd h (by decide)
    · intro _ _
      simp [generate_company_messages, hg.1, hg.2, List.filter, wa_beq_email_eq_false, email_beq_email_eq_true, email_beq_wa_eq_false, wa_beq_wa_eq_true]
  · have hg' : (!is_demo_phone company.primary_phone
        && optTruthy company.primary_phone) = false := by
      simpa using hg
    refine ⟨?_, ?_, ?_, ?_⟩
    · simp [generate_company_messages, hg', List.filter, wa_beq_email_eq_false, email_beq_email_eq_true, email_beq_wa_eq_false, wa_beq_wa_eq_true]
    · intro m hm
      simp only [generate_company_messages] at hm
      rw [hg'] at hm
      simp only [Bool.false_eq_true, if_false, List.mem_cons,
        List.not_mem_nil, or_false] at hm
      rcases hm with h | h | h <;> subst h <;> rfl
    · intro _
      constructor
      · simp [generate_company_messages, hg', List.filter, wa_beq_email_eq_false, email_beq_email_eq_true, email_beq_wa_eq_false, wa_beq_wa_eq_true]
      · simp [generate_company_messages, hg']
    · intro hdemo htru
      rw [Bool.and_eq_true] at hg
      exact absurd ⟨by simp [hdemo], htru⟩ hg

def exCompany8 : Company :=
  { id := 1, name := "Acme", industry := "tech", country := "IN",
    email := some "a@x.com", phone := none, website := none,
    emails := [{ company_id := 1, email := "a@x.com",
                 is_primary := true, is_verified := false }],
    phones := [{ company_id := 1, phone := "5551234567",
                 is_primary := true, is_verified := false }] }

/-- C8 counterexample: company 1 has no contact channel that passed
verification (every `is_verified` flag is false), yet generation creates
its three WHATSAPP sends — the gate never consults the verification flag. -/
theorem whatsapp_gate_ignores_verification :
    has_verified_contact_channel exCompany8 = false
    ∧ ((generate_company_messages exCfg4 exCompany8 1 1 none "b" "w" 0).filter
        (fun m => m.type == .WHATSAPP)).length = 3 := by
  constructor
  · decide
  · decide

def exCompanyDemo : Company :=
  { id := 2, name := "Demo", industry := "tech", country := "IN",
    email := some "d@x.com", phone := some "987654321", website := none,
    emails := [], phones := [] }

/-- Witness for C8 (amended): for the demo number 987654321 the WHATSAPP
stages are omitted entirely — three rows total, none of them WHATSAPP. -/
theorem whatsapp_gate_demo_and_presence_witness :
    (generate_company_messages exCfg4 exCompanyDemo 1 1 none "b" "w" 0).filter
      (fun m => m.type == .WHATSAPP) = []
    ∧ (generate_company_messages exCfg4 exCompanyDemo 1 1 none "b" "w" 0).length = 3 :=
  (whatsapp_gate_demo_and_presence exCfg4 exCompanyDemo 1 1 none "b" "w" 0).2.2.1
    (Or.inl (by decide))

/-! ## C7 -/

def exMsg7 : Message :=
  { id := 20, company_id := 1, campaign_id := 1, type := .EMAIL,
    stage := .INITIAL, content := "hi", subject := some "s",
    status := .DRAFT, scheduled_for := some 0, sent_at := none, error := none }

def exDB7 : DB :=
  { messages := [exMsg7], unsubscribe_list := [], reply_tracking := [] }

/-- C7 counterexample: the reply flow commits twice — `record_reply` commits
the ReplyRecord on its own before the caller cancels anything.  In the first
committed state the ReplyRecord for company 1 exists while the company's
DRAFT send is still DRAFT, and that state differs from the final one. -/
theorem reply_record_intermediate_commit :
    has_replied (reply_ingest_commits exDB7 1 "a@x.com" none none "n" 5).1 1 = true
    ∧ ((reply_ingest_commits exDB7 1 "a@x.com" none none "n" 5).1.messages.filter
        (fun m => m.company_id == 1 && m.status == .DRAFT)).length = 1
    ∧ (reply_ingest_commits exDB7 1 "a@x.com" none none "n" 5).1
        ≠ (reply_ingest_commits exDB7 1 "a@x.com" none none "n" 5).2 := by
  refine ⟨by decide, by decide, by decide⟩

/-- After `record_reply` the company has a reply row, whether the call
found an existing row or inserted a fresh one. -/
theorem has_replied_after_record (db : DB) (cid : Nat) (fe : String)
    (s c : Option String) (now : Nat) :
    has_replied (record_reply db cid fe s c now).2 cid = true := by
  unfold record_reply
  rcases hf : db.reply_tracking.find?
      (fun r => r.company_id == cid && r.from_email == lowerStr fe) with _ | r
  · rw [hf]
    simp [has_replied, List.any_append]
  · rw [hf]
    have hm := List.mem_of_find?_eq_some hf
    have hp := List.find?_some hf
    simp only [Bool.and_eq_true] at hp
    simp only [has_replied]
    rw [List.any_eq_true]
    exact ⟨r, hm, hp.1⟩

/-- C7 amended: recording a reply and cancelling the company's DRAFT sends
happen in the same job invocation but in two separate commits
(`record_reply` commits internally, the cancellation is committed right
after).  After the final commit the ReplyRecord exists and no send of the
company is left in DRAFT; the intermediate committed state sits between the
two (see the counterexample). -/
theorem reply_flow_final_commit_cancels (db : DB) (cid : Nat) (fe : String)
    (s c : Option String) (note : String) (now : Nat) :
    has_replied (reply_ingest_commits db cid fe s c note now).2 cid = true
    ∧ ∀ m ∈ (reply_ingest_commits db cid fe s c note now).2.messages,
        m.company_id = cid → m.status ≠ .DRAFT := by
  constructor
  · exact has_replied_after_record db cid fe s c now
  · intro m hm hcid
    have hmap : (reply_ingest_commits db cid fe s c note now).2.messages
        = ((record_reply db cid fe s c now).2).messages.map (cancelOne cid note) := rfl
    rw [hmap, List.mem_map] at hm
    obtain ⟨x, _, rfl⟩ := hm
    have hcomp : (cancelOne cid note x).company_id = x.company_id := by
      unfold cancelOne
      split <;> rfl
    rw [hcomp] at hcid
    by_cases hc : (x.company_id == cid && x.status == MessageStatus.DRAFT) = true
    · unfold cancelOne
      rw [if_pos hc]
      intro hctr
      simp at hctr
    · unfold cancelOne
      rw [if_neg hc]
      intro hctr
      apply hc
      rw [Bool.and_eq_true]
      exact ⟨by simp [hcid], by simp [hctr]⟩

/-- Witness for C7 (amended): in the final committed state of the concrete
flow the company's former DRAFT send is not in DRAFT any more. -/
theorem reply_flow_final_commit_cancels_witness :
    ({ exMsg7 with status := .CANCELLED, error := some "n" } : Message).status
      ≠ .DRAFT :=
  (reply_flow_final_commit_cancels exDB7 1 "a@x.com" none none "n" 5).2
    { exMsg7 with status := .CANCELLED, error := some "n" } (by decide) (by decide)

/-! ## C9 -/

def exCfg9 : AutomationConfig :=
  { id := 9, is_active := true, status := "running", send_time_hour := 10,
    send_time_minute := some 0, followup_day_1 := 3, followup_day_2 := 7,
    run_duration_days := 7, start_date := some 0, end_date := none,
    total_companies_fetched := 0, days_completed := 0,
    total_messages_sent := 0, last_run_at := none }

def exCfgDraft : AutomationConfig :=
  { exCfg9 with
      id := 2, is_active := false, status := "draft", start_date := none }

/-- C9 counterexample: config 9 started on day 0 with a 7-day run duration
and a null stored `end_date`; on a tick 100 days later — far past
`start_date + run_duration_days` — the driver does not complete it but
triggers a fetch/generate run, leaving it running and active.  And the
explicit start action leaves a draft config's status at "draft" rather than
entering "running". -/
theorem completion_ignores_run_duration :
    exCfg9.status = "running"
    ∧ exCfg9.start_date = some 0
    ∧ exCfg9.run_duration_days = 7
    ∧ 0 + daysToMinutes 7 < 144600
    ∧ (runner_tick_config 144600 true 0 0 exCfg9).1 = true
    ∧ (runner_tick_config 144600 true 0 0 exCfg9).2.status = "running"
    ∧ (runner_tick_config 144600 true 0 0 exCfg9).2.is_active = true
    ∧ (start_automation exCfgDraft).status = "draft" := by
  refine ⟨rfl, rfl, rfl, by decide, by decide, by decide, by decide, rfl⟩

/-- C9 amended: automatic completion is keyed to the stored `end_date`
column, not to `start_date + run_duration_days`: a running active config
whose `end_date` is set and exceeded is completed and deactivated by the
next tick before any fetch/generate is considered; and the explicit start
endpoint only sets `is_active`, leaving `status` (and the dates) unchanged. -/
theorem completion_by_end_date_and_start (cfg : AutomationConfig) (now : Nat)
    (fetchOk : Bool) (k j : Nat) (e : Nat)
    (hact : cfg.is_active = true) (hst : cfg.status = "running")
    (hend : cfg.end_date = some e) (hgt : e < now) :
    runner_tick_config now fetchOk k j cfg
      = (false, { cfg with status := "completed", is_active := false })
    ∧ (start_automation cfg).is_active = true
    ∧ (start_automation cfg).status = cfg.status := by
  refine ⟨?_, rfl, rfl⟩
  simp [runner_tick_config, hact, hst, hend, hgt]

def exCfg9b : AutomationConfig :=
  { exCfg9 with end_date := some 10000 }

/-- Witness for C9 (amended) at a concrete expired config. -/
theorem completion_by_end_date_and_start_witness :
    runner_tick_config 144600 true 0 0 exCfg9b
      = (false, { exCfg9b with status := "completed", is_active := false })
    ∧ (start_automation exCfg9b).is_active = true :=
  ⟨(completion_by_end_date_and_start exCfg9b 144600 true 0 0 10000
      rfl rfl rfl (by decide)).1,
   (completion_by_end_date_and_start exCfg9b 144600 true 0 0 10000
      rfl rfl rfl (by decide)).2.1⟩

end SalesAuto
